import Mathlib

/-!
Shallow embedding of the `http-full` Terraform provider's data source
(`internal/provider/data_source.go`, function `dataSourceRead` and its helper
`isContentTypeText`), together with theorems settling the specification claims.

Go standard-library effects that `dataSourceRead` merely calls through to are
abstracted as parameters of an `Env` record:
* `pemCerts` models `x509.CertPool.AppendCertsFromPEM` — it yields the list of
  certificates successfully parsed from the PEM string (the Go call's boolean
  result is ignored by the provider, which is exactly what the model mirrors);
* `x509KeyPair` models `tls.X509KeyPair` — `none` is a parse failure;
* `jsonMarshal` models `encoding/json.Marshal` on a `map[string]string`
  (total for string maps: the provider's marshal-error branches are dead code
  for such maps and carry no observable behaviour);
* `parseMediaType` models `mime.ParseMediaType` — `none` is a parse error,
  `some (mediaType, params)` is the lowercased media type together with its
  parameter map (parameter names lowercased, as the Go function guarantees);
* `send` models the single `http.Client.Do` round trip.
-/

namespace HttpFull

/-- Input attributes of one invocation, mirroring the schema declared in
`dataSource()`: `url` (required string), `request_headers` (string map),
`request_body` (string map), `ca`, `client_crt`, `client_key` (optional
strings).  The schema declares no `method` attribute.  `none` models a
`d.GetOk` miss (attribute unset or zero-valued). -/
structure ResourceData where
  url : String
  request_headers : List (String × String)
  request_body : Option (List (String × String))
  ca : Option String
  client_crt : Option String
  client_key : Option String

/-- One HTTP response as observed by the provider: status code, header map
(name, already in Go's canonical form, to list of values in receipt order),
and the outcome of `ioutil.ReadAll` on the body (`none` = read error). -/
structure HttpResponse where
  statusCode : Nat
  header : List (String × List String)
  bodyRead : Option String

/-- The `tls.Config` fields the provider populates: `RootCAs` (a pool built
from the `ca` attribute, `none` when `ca` is unset) and `Certificates`. -/
structure TLSConfig where
  rootCAs : Option (List String)
  certificates : List String

/-- Abstracted Go standard-library effects, see the module docstring. -/
structure Env where
  pemCerts : String → List String
  x509KeyPair : String → String → Option String
  jsonMarshal : List (String × String) → String
  parseMediaType : String → Option (String × List (String × String))
  send : TLSConfig → String → String → Option String → List (String × String) →
    Option HttpResponse

/-- Whether the first list is an initial segment of the second. -/
def leadEq : List Char → List Char → Bool
  | [], _ => true
  | _ :: _, [] => false
  | a :: as, b :: bs => a == b && leadEq as bs

/-- Whether `pat` occurs as a contiguous run somewhere in `s`. -/
def containsAux (pat : List Char) : List Char → Bool
  | [] => leadEq pat []
  | c :: rest => leadEq pat (c :: rest) || containsAux pat rest

/-- `strings.Contains s pat`: substring occurrence. -/
def strContains (s pat : String) : Bool :=
  containsAux pat.data s.data

/-- `strings.ToLower` as applied by the provider: every string it lowercases
here is compared against an ASCII literal, so ASCII case folding is the
observable behaviour. -/
def strToLower (s : String) : String :=
  ⟨s.data.map Char.toLower⟩

/-- The form-encoded branch of the body dispatch: `json.Marshal` of the body
map followed by `json.Unmarshal` into `map[string]string` round-trips the
map, and the provider then takes the reserved key `"body"` (a missing key
yields Go's zero value `""`). -/
def formBodyValue (b : List (String × String)) : String :=
  (List.lookup "body" b).getD ""

/-- Body-encoding dispatch of `dataSourceRead` (lines 133–158): a
case-sensitive lookup of the literal key `"content-type"` in the
`request_headers` map; on a hit, dispatch on which encoding the
(lowercased) value mentions; a value naming neither form nor JSON assigns
no body at all; on a miss, marshal the map as JSON. -/
def encodeBody (jsonMarshal : List (String × String) → String)
    (headers : List (String × String)) (b : List (String × String)) :
    Option String :=
  match List.lookup "content-type" headers with
  | some contentType =>
    if strContains (strToLower contentType) "application/x-www-form-urlencoded" then
      some (formBodyValue b)
    else if strContains (strToLower contentType) "application/json" then
      some (jsonMarshal b)
    else
      none
  | none => some (jsonMarshal b)

/-- Verb and body resolution of `dataSourceRead` (lines 128–159): the verb is
`GET`, switched to `POST` exactly when `request_body` is present; there is no
other input to the verb (the schema has no `method` attribute). -/
def buildVerbBody (jsonMarshal : List (String × String) → String)
    (headers : List (String × String)) (rb : Option (List (String × String))) :
    String × Option String :=
  match rb with
  | none => ("GET", none)
  | some b => ("POST", encodeBody jsonMarshal headers b)

/-- The Go regular expression `^text/.+` evaluated on a media type: the
string starts with `text/` and the following character exists and is not a
newline (RE2's `.` does not match `\n`). -/
def textRegexMatch (t : String) : Bool :=
  (t.data.take 5 == "text/".data) &&
    (match t.data.drop 5 with
     | c :: _ => c != '\n'
     | [] => false)

/-- The Go regular expression `^application/json$` (RE2's `$` anchors at end
of text): exact equality. -/
def jsonRegexMatch (t : String) : Bool :=
  t == "application/json"

/-- The Go regular expression `^application/samlmetadata\+xml` (no end
anchor): prefix match. -/
def samlRegexMatch (t : String) : Bool :=
  leadEq "application/samlmetadata+xml".data t.data

/-- `strings.ToLower(params["charset"])` — exact lookup of the (already
lowercased) attribute name, Go's zero value `""` on a miss. -/
def charsetParam (params : List (String × String)) : String :=
  strToLower ((List.lookup "charset" params).getD "")

/-- The charset guard shared by every allowed type in `isContentTypeText`:
charset absent/empty, `utf-8`, or `us-ascii`, compared after lowercasing. -/
def charsetAllowed (params : List (String × String)) : Bool :=
  let charset := charsetParam params
  charset == "" || charset == "utf-8" || charset == "us-ascii"

/-- `isContentTypeText` (lines 216–237): parse the media type (parse error
gives `false`); if any of the three allowed-type regexes matches the parsed
type, the answer is the charset guard (the loop body is identical for each
regex, so the first-match loop is the disjunction); otherwise `false`. -/
def isContentTypeText
    (parseMediaType : String → Option (String × List (String × String)))
    (contentType : String) : Bool :=
  match parseMediaType contentType with
  | none => false
  | some (parsedType, params) =>
    if textRegexMatch parsedType || jsonRegexMatch parsedType ||
        samlRegexMatch parsedType then
      charsetAllowed params
    else
      false

/-- Modelled from the spec's words for the C6 comparison: the type is safe
when it is `text/` followed by a non-empty subtype, or exactly
`application/json`, or matches `application/samlmetadata+xml`, and the
charset parameter is absent/empty, `utf-8` or `us-ascii` case-insensitively;
an unparseable media type is not safe. -/
def textSpecMatch (t : String) : Bool :=
  (t.data.take 5 == "text/".data) && !(t.data.drop 5 == [])

/-- Spec-side counterpart of `isContentTypeText`, see `textSpecMatch`. -/
def isContentTypeTextSpec
    (parseMediaType : String → Option (String × List (String × String)))
    (contentType : String) : Bool :=
  match parseMediaType contentType with
  | none => false
  | some (parsedType, params) =>
    (textSpecMatch parsedType || jsonRegexMatch parsedType ||
      samlRegexMatch parsedType) && charsetAllowed params

/-- `resp.Header.Get key`: first value of the entry for `key`, `""` when the
entry is absent or empty (keys are stored in canonical form, and the
provider only ever asks for the canonical `"Content-Type"`). -/
def headerGet (header : List (String × List String)) (key : String) : String :=
  match List.lookup key header with
  | some (v :: _) => v
  | _ => ""

/-- `strings.Join v ", "` as applied to each response-header value list
(lines 195–200, the RFC 2616 §4.2 combination rule). -/
def joinHeaderValues (vs : List String) : String :=
  String.intercalate ", " vs

/-- The `responseHeaders` map built by lines 195–200: one entry per response
header name, values joined with `", "` in receipt order. -/
def normalizeHeaders (header : List (String × List String)) :
    List (String × String) :=
  header.map (fun kv => (kv.1, joinHeaderValues kv.2))

/-- The only non-2xx diagnostic the provider emits (line 178):
`"HTTP request error. Response code: <code>"` — nothing else, in
particular no response-body text. -/
def statusErrorMessage (code : Nat) : String :=
  "HTTP request error. Response code: " ++ toString code

/-- Summary of the non-fatal warning attached for an absent or non-text
content type (lines 183–188). -/
def contentTypeWarning (contentType : String) : String :=
  "Content-Type is not recognized as a text type, got \"" ++ contentType ++ "\""

/-- The data set on success: warning diagnostics (non-fatal), the `body`
attribute, the `response_headers` attribute, and the resource id (the URL). -/
structure SuccessResult where
  warnings : List String
  body : String
  responseHeaders : List (String × String)
  id : String
deriving DecidableEq

/-- Outcome of the response-classification tail of `dataSourceRead`
(lines 177–210). `readError` stands for the `diag.FromErr` return on a
failed body read (its message is the I/O error's own text). -/
inductive ClassifyResult where
  | statusError (msg : String)
  | readError
  | ok (r : SuccessResult)
deriving DecidableEq

/-- Lines 177–210 of `dataSourceRead`: reject any status other than exactly
200 with `statusErrorMessage`; otherwise attach the content-type warning
when the `Content-Type` header is empty or not text-safe, read the body
(failure aborts), and return body, joined headers and the URL as id. -/
def classifyResponse
    (parseMediaType : String → Option (String × List (String × String)))
    (url : String) (resp : HttpResponse) : ClassifyResult :=
  if resp.statusCode != 200 then
    .statusError (statusErrorMessage resp.statusCode)
  else
    let contentType := headerGet resp.header "Content-Type"
    let warnings :=
      if contentType == "" || isContentTypeText parseMediaType contentType == false
      then [contentTypeWarning contentType]
      else []
    match resp.bodyRead with
    | none => .readError
    | some bodyText => .ok ⟨warnings, bodyText, normalizeHeaders resp.header, url⟩

/-- Outcome of one whole invocation.  `configError` is returned before the
network call; `sendError` models a `client.Do` failure (its message wraps
the transport error's own text). -/
inductive InvocationResult where
  | configError (msg : String)
  | sendError
  | statusError (msg : String)
  | readError
  | ok (r : SuccessResult)
deriving DecidableEq

/-- Whether an invocation ended in a configuration diagnostic. -/
def isConfigError : InvocationResult → Bool
  | .configError _ => true
  | _ => false

/-- The network-and-classification tail of `dataSourceRead` (lines 128–210):
resolve verb and body, perform the single round trip, classify. -/
def performRequest (env : Env) (tlsConfig : TLSConfig) (d : ResourceData) :
    InvocationResult :=
  match env.send tlsConfig
      (buildVerbBody env.jsonMarshal d.request_headers d.request_body).1
      d.url
      (buildVerbBody env.jsonMarshal d.request_headers d.request_body).2
      d.request_headers with
  | none => .sendError
  | some resp =>
    match classifyResponse env.parseMediaType d.url resp with
    | .statusError msg => .statusError msg
    | .readError => .readError
    | .ok r => .ok r

/-- `dataSourceRead` (lines 94–211).  TLS configuration first: the `ca`
attribute, when set, has its parseable certificates appended to a fresh pool
— the append's boolean result is ignored, so a malformed PEM simply leaves
the pool empty and raises nothing.  Then the client pair: `client_crt`
without `client_key` is the only pairing rejected (`client_key` alone is
never examined because the outer `GetOk("client_crt")` fails); a key-pair
parse failure is also a configuration error.  Everything else proceeds to
the network call. -/
def dataSourceRead (env : Env) (d : ResourceData) : InvocationResult :=
  match d.client_crt with
  | none => performRequest env ⟨d.ca.map env.pemCerts, []⟩ d
  | some crt =>
    match d.client_key with
    | none => .configError "Both client_crt and client_key must be specified"
    | some key =>
      match env.x509KeyPair crt key with
      | none => .configError "Error loading client certificates"
      | some kp => performRequest env ⟨d.ca.map env.pemCerts, [kp]⟩ d

/-- A concrete environment for witnesses and counterexamples: no PEM content
parses, every key pair parses, marshalling is a fixed placeholder, no media
type parses, and the server answers 200 `text/plain` with body `1.0.0`. -/
def cEnv : Env where
  pemCerts := fun _ => []
  x509KeyPair := fun _ _ => some "PAIR"
  jsonMarshal := fun _ => "(json)"
  parseMediaType := fun _ => none
  send := fun _ _ _ _ _ =>
    some ⟨200, [("Content-Type", ["text/plain"])], some "1.0.0"⟩

/-- A concrete media-type parser for the C6 witness. -/
def sampleParse : String → Option (String × List (String × String)) :=
  fun s =>
    if s = "text/plain; charset=UTF-8" then
      some ("text/plain", [("charset", "UTF-8")])
    else
      none

/-- C1 counterexample: the status code 204 lies in the interval [200,300),
yet `classifyResponse` rejects the response with the response-status error —
the code accepts only the exact status 200, not the whole 2xx range. -/
theorem status_204_rejected :
    (200 ≤ 204 ∧ 204 < 300) ∧
      classifyResponse (fun _ => none) "u"
          ⟨204, [("Content-Type", ["text/plain"])], some "x"⟩
        = .statusError "HTTP request error. Response code: 204" :=
  ⟨by decide, rfl⟩

/-- C1 (amended): a response produces the response-status error if and only
if its status code differs from exactly 200; every other code — including
2xx codes other than 200 — fails, and a 200 response never produces the
status error. -/
theorem status_error_iff_not_200
    (parse : String → Option (String × List (String × String)))
    (url : String) (resp : HttpResponse) :
    (∃ msg, classifyResponse parse url resp = .statusError msg) ↔
      resp.statusCode ≠ 200 := by
  unfold classifyResponse
  by_cases h : resp.statusCode = 200
  · simp only [h, ne_eq, not_true_eq_false, iff_false, not_exists]
    intro msg
    simp only [bne_self_eq_false, Bool.false_eq_true, if_false]
    cases resp.bodyRead <;> simp
  · simp only [ne_eq, h, not_false_eq_true, iff_true]
    have hb : (resp.statusCode != 200) = true := by
      simpa using h
    exact ⟨statusErrorMessage resp.statusCode, by simp [hb]⟩

/-- C2 code-bug evidence: at the repository's own test fixture (a 500
response with readable body `"ruh-roh"`, endpoint `/errorwithbody`), the
code emits only `HTTP request error. Response code: 500` — the readable
body is discarded and never appears in the message, although the test
`TestDataSource_httperrorwithbody` expects
`HTTP request error. Response code: 500,  Error Response body: ruh-roh`. -/
theorem error_body_discarded_at_500 :
    classifyResponse (fun _ => none) "u" ⟨500, [], some "ruh-roh"⟩
        = .statusError "HTTP request error. Response code: 500" ∧
      strContains "HTTP request error. Response code: 500" "ruh-roh" = false :=
  ⟨rfl, by decide⟩

/-- C3 code-bug evidence: the resolved verb is a function of body presence
alone — `POST` whenever `request_body` is present, else `GET`.  The schema
declares no `method` attribute (`ResourceData` has no such field), so an
explicit method can never be honored, although the repository's docs and
the test `TestDataSource_verb` (explicit `method = "GET"` with a body,
expecting the 405 a GET draws from `/post`) require it. -/
theorem verb_is_body_presence_only
    (jsonMarshal : List (String × String) → String)
    (headers : List (String × String))
    (rb : Option (List (String × String))) :
    (buildVerbBody jsonMarshal headers rb).1 =
      if rb.isSome then "POST" else "GET" := by
  cases rb <;> rfl

/-- Helper shared by several claims: once the invocation reaches the
network-and-classification tail, it can no longer produce a configuration
error. -/
theorem performRequest_not_configError (env : Env) (tls : TLSConfig)
    (d : ResourceData) :
    isConfigError (performRequest env tls d) = false := by
  unfold performRequest
  cases env.send tls
      (buildVerbBody env.jsonMarshal d.request_headers d.request_body).1
      d.url
      (buildVerbBody env.jsonMarshal d.request_headers d.request_body).2
      d.request_headers with
  | none => rfl
  | some resp =>
    dsimp only
    cases classifyResponse env.parseMediaType d.url resp <;> rfl

/-- C4 counterexample: with `client_key` set and `client_crt` unset —
exactly one of the pair — the invocation does not fail with a configuration
error: the outer `GetOk("client_crt")` misses, the whole pairing check is
skipped, and the request proceeds to the network and succeeds. -/
theorem client_key_alone_not_rejected :
    isConfigError
        (dataSourceRead cEnv ⟨"u", [], none, none, none, some "KEY"⟩)
      = false :=
  rfl

/-- C4 (amended): the pairing check is one-sided.  `client_crt` set without
`client_key` is rejected, for every environment (hence before any network
call), with the message `Both client_crt and client_key must be specified`,
which contains `client_crt and client_key`; but when `client_crt` is unset
the invocation never produces a configuration error, whatever
`client_key` holds. -/
theorem client_pair_check_one_sided (env : Env) (d : ResourceData) :
    (d.client_crt ≠ none → d.client_key = none →
      dataSourceRead env d
        = .configError "Both client_crt and client_key must be specified") ∧
    strContains "Both client_crt and client_key must be specified"
        "client_crt and client_key" = true ∧
    (d.client_crt = none → isConfigError (dataSourceRead env d) = false) := by
  refine ⟨?_, by decide, ?_⟩
  · intro hcrt hkey
    unfold dataSourceRead
    cases hc : d.client_crt with
    | none => exact absurd hc hcrt
    | some crt => rw [hkey]
  · intro hc
    unfold dataSourceRead
    rw [hc]
    exact performRequest_not_configError env ⟨d.ca.map env.pemCerts, []⟩ d

/-- C4 witness: the first conjunct applied at a concrete input —
`client_crt` set, `client_key` unset — yields the configuration error. -/
theorem client_pair_check_one_sided_witness :
    dataSourceRead cEnv ⟨"u", [], none, none, some "CRT", none⟩
      = .configError "Both client_crt and client_key must be specified" :=
  (client_pair_check_one_sided cEnv
      ⟨"u", [], none, none, some "CRT", none⟩).1 (by simp) rfl

/-- C5 counterexample: with `ca` set to a string from which no certificate
can be parsed (the environment's `pemCerts` extracts nothing, modelling
`AppendCertsFromPEM` returning `false` on malformed PEM), the invocation
raises no configuration error at all — the malformed PEM is silently
ignored and the request proceeds and succeeds. -/
theorem malformed_ca_not_rejected :
    isConfigError
        (dataSourceRead cEnv ⟨"u", [], none, some "not a pem", none, none⟩)
      = false :=
  rfl

/-- C5 (amended): a `ca` value from which nothing parses is silently
ignored — the boolean result of `AppendCertsFromPEM` is discarded, the
invocation equals the request performed with an empty trust pool, and no
configuration error is produced. -/
theorem malformed_ca_silently_ignored (env : Env) (d : ResourceData)
    (s : String) (hca : d.ca = some s) (hbad : env.pemCerts s = [])
    (hcrt : d.client_crt = none) :
    dataSourceRead env d = performRequest env ⟨some [], []⟩ d ∧
      isConfigError (dataSourceRead env d) = false := by
  have hread : dataSourceRead env d = performRequest env ⟨some [], []⟩ d := by
    unfold dataSourceRead
    rw [hcrt, hca]
    simp [Option.map, hbad]
  refine ⟨hread, ?_⟩
  rw [hread]
  exact performRequest_not_configError env ⟨some [], []⟩ d

/-- C5 witness: the amended theorem applied at a concrete malformed `ca`. -/
theorem malformed_ca_silently_ignored_witness :
    dataSourceRead cEnv ⟨"u", [], none, some "not a pem", none, none⟩
        = performRequest cEnv ⟨some [], []⟩
            ⟨"u", [], none, some "not a pem", none, none⟩ ∧
      isConfigError
          (dataSourceRead cEnv ⟨"u", [], none, some "not a pem", none, none⟩)
        = false :=
  malformed_ca_silently_ignored cEnv
    ⟨"u", [], none, some "not a pem", none, none⟩ "not a pem" rfl rfl rfl

/-- Helper for C6: on a media type containing no newline — which is every
type `mime.ParseMediaType` can return, since media-type tokens exclude
control characters — the Go regex `^text/.+` is exactly "`text/` followed
by a non-empty subtype". -/
theorem textRegexMatch_eq_spec (t : String) (h : '\n' ∉ t.data) :
    textRegexMatch t = textSpecMatch t := by
  unfold textRegexMatch textSpecMatch
  cases hd : t.data.drop 5 with
  | nil => simp
  | cons c cs =>
    have hc : c ∈ t.data :=
      List.drop_subset 5 t.data (hd ▸ List.mem_cons_self c cs)
    have hcn : c ≠ '\n' := fun he => h (he ▸ hc)
    simp [hcn]

/-- C6: the text-safety classifier agrees with the spec's description —
true iff the parsed media type is `text/` plus a non-empty subtype, exactly
`application/json`, or matches `application/samlmetadata+xml`, and the
charset parameter is absent/empty, `utf-8` or `us-ascii` case-insensitively;
an unparseable media type yields false.  The hypothesis records the
guarantee of `mime.ParseMediaType` that a parsed media type contains no
newline (its tokens exclude control characters). -/
theorem isContentTypeText_matches_spec
    (parse : String → Option (String × List (String × String))) (ct : String)
    (h : ∀ t ps, parse ct = some (t, ps) → '\n' ∉ t.data) :
    isContentTypeText parse ct = isContentTypeTextSpec parse ct := by
  unfold isContentTypeText isContentTypeTextSpec
  cases hp : parse ct with
  | none => rfl
  | some tp =>
    obtain ⟨t, ps⟩ := tp
    dsimp only
    rw [textRegexMatch_eq_spec t (h t ps hp)]
    cases textSpecMatch t || jsonRegexMatch t || samlRegexMatch t <;> simp

/-- C6 witness: the equivalence at a concrete parser and content type. -/
theorem isContentTypeText_matches_spec_witness :
    isContentTypeText sampleParse "text/plain; charset=UTF-8"
      = isContentTypeTextSpec sampleParse "text/plain; charset=UTF-8" :=
  isContentTypeText_matches_spec sampleParse "text/plain; charset=UTF-8"
    (by
      intro t ps hp
      simp [sampleParse] at hp
      obtain ⟨h1, h2⟩ := hp
      subst h1
      decide)

/-- C7: an accepted response (status 200) whose `Content-Type` header is
absent or not text-safe, and whose body reads successfully, still yields the
full result — body and joined headers set, id set to the URL — with the
non-fatal content-type warning attached; the unsafe content type never
aborts the invocation. -/
theorem unsafe_content_type_warns_not_fails
    (parse : String → Option (String × List (String × String)))
    (url : String) (resp : HttpResponse) (b : String)
    (hstatus : resp.statusCode = 200)
    (hread : resp.bodyRead = some b)
    (hct : headerGet resp.header "Content-Type" = "" ∨
      isContentTypeText parse (headerGet resp.header "Content-Type") = false) :
    classifyResponse parse url resp
      = .ok ⟨[contentTypeWarning (headerGet resp.header "Content-Type")], b,
          normalizeHeaders resp.header, url⟩ := by
  unfold classifyResponse
  rw [hstatus, hread]
  rcases hct with h | h <;> simp [h]

/-- C7 witness: a 200 response with no `Content-Type` header at all is
returned in full, with the warning attached. -/
theorem unsafe_content_type_warns_not_fails_witness :
    classifyResponse (fun _ => none) "u"
        ⟨200, [("X-Single", ["foobar"])], some "1.0.0"⟩
      = .ok ⟨[contentTypeWarning ""], "1.0.0", [("X-Single", "foobar")], "u"⟩ :=
  unsafe_content_type_warns_not_fails (fun _ => none) "u"
    ⟨200, [("X-Single", ["foobar"])], some "1.0.0"⟩ "1.0.0" rfl rfl
    (Or.inl rfl)

/-- C8: on an accepted, readable response, every response header name with
values `vs` appears in the returned headers map as `vs` joined with `", "`
in receipt order; a single-valued name maps directly to its value, and the
two occurrences `1`, `2` normalize to `1, 2`. -/
theorem response_headers_joined
    (parse : String → Option (String × List (String × String)))
    (url : String) (resp : HttpResponse) (b : String)
    (name : String) (vs : List String)
    (hstatus : resp.statusCode = 200)
    (hread : resp.bodyRead = some b)
    (hmem : (name, vs) ∈ resp.header) :
    (∃ r, classifyResponse parse url resp = .ok r ∧
      (name, String.intercalate ", " vs) ∈ r.responseHeaders) ∧
    (∀ v : String, String.intercalate ", " [v] = v) ∧
    String.intercalate ", " ["1", "2"] = "1, 2" := by
  refine ⟨?_, fun v => rfl, rfl⟩
  unfold classifyResponse
  rw [hstatus, hread]
  simp only [bne_self_eq_false, Bool.false_eq_true, if_false]
  exact ⟨_, rfl, List.mem_map_of_mem _ hmem⟩

/-- C8 witness: the joined-headers fact at the repository's own test
fixture — `X-Double` received twice with values `1` and `2`. -/
theorem response_headers_joined_witness :
    ((∃ r, classifyResponse (fun _ => none) "u"
          ⟨200, [("X-Double", ["1", "2"])], some "1.0.0"⟩ = .ok r ∧
        ("X-Double", String.intercalate ", " ["1", "2"]) ∈ r.responseHeaders) ∧
      (∀ v : String, String.intercalate ", " [v] = v) ∧
      String.intercalate ", " ["1", "2"] = "1, 2") :=
  response_headers_joined (fun _ => none) "u"
    ⟨200, [("X-Double", ["1", "2"])], some "1.0.0"⟩ "1.0.0"
    "X-Double" ["1", "2"] rfl rfl (List.mem_singleton.mpr rfl)

/-- C9: with a request body present and a `content-type` header value that
mentions neither `application/x-www-form-urlencoded` nor `application/json`,
the dispatch falls through every encoding branch: no encoding is assigned
and the request is sent with verb POST and a nil body. -/
theorem other_content_type_sends_nil_body
    (jsonMarshal : List (String × String) → String)
    (headers : List (String × String)) (b : List (String × String))
    (ct : String)
    (hct : List.lookup "content-type" headers = some ct)
    (hform : strContains (strToLower ct) "application/x-www-form-urlencoded" = false)
    (hjson : strContains (strToLower ct) "application/json" = false) :
    encodeBody jsonMarshal headers b = none ∧
      buildVerbBody jsonMarshal headers (some b) = ("POST", none) := by
  have henc : encodeBody jsonMarshal headers b = none := by
    unfold encodeBody
    rw [hct]
    simp [hform, hjson]
  exact ⟨henc, by unfold buildVerbBody; dsimp only; rw [henc]⟩

/-- C9 witness: a body posted under `content-type: text/plain` goes out
with a nil body. -/
theorem other_content_type_sends_nil_body_witness :
    encodeBody cEnv.jsonMarshal [("content-type", "text/plain")]
        [("a", "b")] = none ∧
      buildVerbBody cEnv.jsonMarshal [("content-type", "text/plain")]
        (some [("a", "b")]) = ("POST", none) :=
  other_content_type_sends_nil_body cEnv.jsonMarshal
    [("content-type", "text/plain")] [("a", "b")] "text/plain"
    rfl (by decide) (by decide)

/-- C10: the dispatch looks up the headers map with the exact lowercase key
`content-type`; when that lookup misses — for example because the map
carries the declaration under the key `Content-Type` — the body map is
marshalled as a flat JSON object (the no-content-type default branch), not
form-encoded. -/
theorem content_type_lookup_is_case_sensitive
    (jsonMarshal : List (String × String) → String)
    (headers : List (String × String)) (b : List (String × String))
    (hmiss : List.lookup "content-type" headers = none) :
    buildVerbBody jsonMarshal headers (some b)
      = ("POST", some (jsonMarshal b)) := by
  unfold buildVerbBody encodeBody
  rw [hmiss]

/-- C10 witness: a form declaration under the key `Content-Type` (canonical
casing) misses the lowercase lookup and the body map is JSON-marshalled
rather than form-encoded. -/
theorem content_type_lookup_is_case_sensitive_witness :
    buildVerbBody cEnv.jsonMarshal
        [("Content-Type", "application/x-www-form-urlencoded")]
        (some [("body", "foo=bar&bar=bar")])
      = ("POST", some (cEnv.jsonMarshal [("body", "foo=bar&bar=bar")])) :=
  content_type_lookup_is_case_sensitive cEnv.jsonMarshal
    [("Content-Type", "application/x-www-form-urlencoded")]
    [("body", "foo=bar&bar=bar")] (by decide)

end HttpFull
